/-
Verification of the resilient transfer client and result uploader of
`cloudflare_speedtest.py` (repository yx-tools).

The Python source is shallowly embedded: every definition below mirrors a
concrete function or code block of `src/cloudflare_speedtest.py` (line
numbers are cited), with I/O made explicit: the outcome of each HTTP
attempt, subprocess invocation or file probe is an explicit input, and the
functions compute the decisions and event sequences the source derives
from those outcomes.
-/
import Mathlib

namespace CFST

/-- Whether `pat` occurs as a contiguous sublist of `l`. -/
def containsSubChars (pat : List Char) : List Char → Bool
  | [] => pat.isEmpty
  | x :: xs => pat.isPrefixOf (x :: xs) || containsSubChars pat xs

/-- Models Python `pat in s` (substring containment). -/
def containsSub (s pat : String) : Bool := containsSubChars pat.data s.data

/-- The apostrophe character, as a string. -/
def APOSTROPHE : String := String.singleton (Char.ofNat 39)

/-- Python exceptions, as far as the embedded code distinguishes them:
`ImportError`, the `requests.exceptions.RequestException` family (which
includes `ConnectionError` and `Timeout`), and everything else.  The
carried string is `str(e)`. -/
inductive PyExc where
  | importError (msg : String)
  | requestException (msg : String)
  | other (msg : String)
deriving DecidableEq

/-- The message fragment tested at src lines 435, 3615, 3643, 3743, 3787,
3971, 4049, etc. -/
def SSL_ERR_MSG : String := "SSL module is not available"

/-- `except ImportError as e: if "SSL module is not available" in str(e)`
— the capability-unavailable trigger (e.g. src/cloudflare_speedtest.py
lines 3613-3615). -/
def isSslImportError : PyExc → Bool
  | .importError msg => containsSub msg SSL_ERR_MSG
  | _ => false

/-- The three connection-error message fragments tested at
src/cloudflare_speedtest.py lines 3994 and 4065. -/
def NETWORK_FALLBACK_MSGS : List String :=
  ["Can" ++ APOSTROPHE ++ "t assign requested address",
   "Failed to establish",
   "Max retries exceeded"]

/-- `except (requests.exceptions.ConnectionError,
requests.exceptions.RequestException) as e` followed by the substring
tests at src lines 3991-3994 / 4062-4065. -/
def isNetworkFallbackExc : PyExc → Bool
  | .requestException msg => NETWORK_FALLBACK_MSGS.any (containsSub msg)
  | _ => false

/-- Result of one guarded HTTP call site, as seen by the code surrounding
the inner `try`: the primary `requests` stack answered, the external curl
tool answered after a fallback, or an exception propagated to the
surrounding handler. -/
inductive ClientOutcome (α : Type) where
  | primary (r : α)
  | curlFallback (r : α)
  | raised (e : PyExc)
deriving DecidableEq

/-- The API uploader call pattern (src lines 3611-3618, 3639-3646,
3734-3752, 3778-3796): `try requests...` / `except ImportError as e`: if
the message names the SSL capability, call `curl_request`; otherwise
re-raise.  Any non-ImportError exception from the primary stack, and any
exception from the curl attempt, propagates. -/
def apiClientCall {α : Type} (primary curl : Except PyExc α) : ClientOutcome α :=
  match primary with
  | .ok r => .primary r
  | .error e =>
    if isSslImportError e then
      match curl with
      | .ok r => .curlFallback r
      | .error e2 => .raised e2
    else .raised e

/-- Result of the repository uploader's GET probe call site (src lines
3951-4017): besides the `ClientOutcome` cases, a failed curl retry in the
network-error branch is caught at line 4014 and the code continues with
no response at all. -/
inductive GhGetOutcome (α : Type) where
  | primary (r : α)
  | curlFallback (r : α)
  | curlFailedContinue (e : PyExc)
  | raised (e : PyExc)
deriving DecidableEq

/-- The repository uploader's GET on the contents path (src lines
3951-4017): `except ImportError` with the SSL message falls back to curl
(a curl failure then propagates); `except (ConnectionError,
RequestException)` whose message holds one of `NETWORK_FALLBACK_MSGS`
also falls back to curl (a curl failure there is caught at line 4014 and
the code continues); every other exception re-raises. -/
def githubGetCall {α : Type} (primary curl : Except PyExc α) : GhGetOutcome α :=
  match primary with
  | .ok r => .primary r
  | .error e =>
    if isSslImportError e then
      match curl with
      | .ok r => .curlFallback r
      | .error e2 => .raised e2
    else if isNetworkFallbackExc e then
      match curl with
      | .ok r => .curlFallback r
      | .error e2 => .curlFailedContinue e2
    else .raised e

/-- The repository uploader's PUT on the contents path (src lines
4036-4082): same two fallback triggers as the GET, but a curl failure in
the network-error branch re-raises (line 4080). -/
def githubPutCall {α : Type} (primary curl : Except PyExc α) : ClientOutcome α :=
  match primary with
  | .ok r => .primary r
  | .error e =>
    if isSslImportError e then
      match curl with
      | .ok r => .curlFallback r
      | .error e2 => .raised e2
    else if isNetworkFallbackExc e then
      match curl with
      | .ok r => .curlFallback r
      | .error e2 => .raised e2
    else .raised e

/-- A generic HTTP response as the call-site models see it. -/
structure Resp where
  status_code : Int
  body : String
deriving DecidableEq

/-! ### `download_file` (src/cloudflare_speedtest.py lines 417-541) -/

/-- The download strategies `download_file` can invoke, in the source's
terms: method 1 (`requests.get` on the given url, with its silent curl
fallback when the SSL capability is missing), method 2 (`wget`), method 3
(`curl`), method 3.5 (Windows PowerShell), method 4 (`urllib`), and
method 5 (the same in-process strategy as method 1 against the
http-downgraded url). -/
inductive Strategy where
  | requestsGet
  | sslCurl
  | wgetTool
  | curlTool
  | powershellTool
  | urllibTool
  | requestsGetHttp
  | sslCurlHttp
deriving DecidableEq

/-- What a `subprocess.run` based download attempt did: it completed with
a return code, leaving the destination file existing (and possibly
non-empty) or not, or it raised (`TimeoutExpired`, `FileNotFoundError`,
or anything else — `download_file` swallows them all alike). -/
inductive SubprocAttempt where
  | completed (returncode : Int) (fileExists : Bool) (fileNonEmpty : Bool)
  | raisedExc (e : PyExc)
deriving DecidableEq

/-- What an in-process `requests.get`-and-stream-to-file attempt did:
either the whole body was written to the destination file (which is then
possibly empty), or some exception was raised. -/
inductive RequestsAttempt where
  | ok (fileNonEmpty : Bool)
  | exc (e : PyExc)
deriving DecidableEq

/-- The acceptance test `result.returncode == 0 and
os.path.exists(filename)` applied after each subprocess strategy (src
lines 440, 455, 471, 489); an attempt that raised is never accepted. -/
def subprocOk : SubprocAttempt → Bool
  | .completed rc ex _ => rc == 0 && ex
  | .raisedExc _ => false

/-- One `download_file` environment: the outcome each strategy would have
if invoked, plus the ambient facts the code branches on (`sys.platform ==
"win32"`, `url.startswith("https://")`). -/
structure DownloadWorld where
  reqHttps : RequestsAttempt
  sslCurlHttps : SubprocAttempt
  wget : SubprocAttempt
  curl : SubprocAttempt
  isWin32 : Bool
  powershell : SubprocAttempt
  urllibOk : Bool
  urllibNonEmpty : Bool
  urlIsHttps : Bool
  reqHttp : RequestsAttempt
  sslCurlHttp : SubprocAttempt
deriving DecidableEq

/-- The in-process strategy shared by method 1 (src lines 422-447) and
method 5 (src lines 512-537): try `requests.get` and stream to the file;
on an ImportError naming the SSL capability, run curl and accept exit 0
with an existing file; any other outcome of this block falls through to
the next method (the outer `except Exception: pass`).  Returns the list
of sub-strategies attempted (tagged `tag1` for the requests attempt and
`tag2` for the silent curl retry) and whether the method returned
`True`. -/
def requestsMethod (req : RequestsAttempt) (sslCurl : SubprocAttempt)
    (tag1 tag2 : Strategy) : List Strategy × Bool :=
  match req with
  | .ok _ => ([tag1], true)
  | .exc e =>
    if isSslImportError e then ([tag1, tag2], subprocOk sslCurl)
    else ([tag1], false)

/-- Whether the in-process strategy succeeds (its `Bool` component). -/
def requestsMethodOk (req : RequestsAttempt) (sslCurl : SubprocAttempt) : Bool :=
  (requestsMethod req sslCurl .requestsGet .sslCurl).2

/-- `download_file(url, filename)` (src lines 417-541), as the ordered
strategy cascade it is: each failure is swallowed and the next method
runs; method 3.5 runs only on Windows; method 5 runs only for an https
url and repeats exactly the method-1 in-process strategy against the
http variant.  Returns the strategies attempted, in order, and the
boolean the function returns. -/
def download_file (w : DownloadWorld) : List Strategy × Bool :=
  let m1 := requestsMethod w.reqHttps w.sslCurlHttps .requestsGet .sslCurl
  if m1.2 then m1 else
  let t1 := m1.1 ++ [Strategy.wgetTool]
  if subprocOk w.wget then (t1, true) else
  let t2 := t1 ++ [Strategy.curlTool]
  if subprocOk w.curl then (t2, true) else
  let t3 := if w.isWin32 then t2 ++ [Strategy.powershellTool] else t2
  if w.isWin32 && subprocOk w.powershell then (t3, true) else
  let t4 := t3 ++ [Strategy.urllibTool]
  if w.urllibOk then (t4, true) else
  if w.urlIsHttps then
    let m5 := requestsMethod w.reqHttp w.sslCurlHttp .requestsGetHttp .sslCurlHttp
    (t4 ++ m5.1, m5.2)
  else (t4, false)

/-- Whether some strategy of the cascade, as actually gated by the code,
succeeds: used to state when `download_file` returns `True`. -/
def anyStrategyOk (w : DownloadWorld) : Bool :=
  requestsMethodOk w.reqHttps w.sslCurlHttps || subprocOk w.wget || subprocOk w.curl
    || (w.isWin32 && subprocOk w.powershell) || w.urllibOk
    || (w.urlIsHttps && requestsMethodOk w.reqHttp w.sslCurlHttp)

/-- Whether any attempt in the world left a non-empty destination file:
the code never inspects this, which is what claim C2 is about. -/
def someStrategyNonEmpty (w : DownloadWorld) : Bool :=
  (match w.reqHttps with | .ok ne => ne | .exc _ => false)
    || (match w.sslCurlHttps with | .completed _ _ ne => ne | .raisedExc _ => false)
    || (match w.wget with | .completed _ _ ne => ne | .raisedExc _ => false)
    || (match w.curl with | .completed _ _ ne => ne | .raisedExc _ => false)
    || (match w.powershell with | .completed _ _ ne => ne | .raisedExc _ => false)
    || (w.urllibOk && w.urllibNonEmpty)
    || (match w.reqHttp with | .ok ne => ne | .exc _ => false)
    || (match w.sslCurlHttp with | .completed _ _ ne => ne | .raisedExc _ => false)

/-! ### Numbers and strings: `str`, `int`, `float`, `f"{x:.2f}"` -/

/-- Decimal digits of `n`, most significant first, with explicit fuel
(any fuel above the digit count gives the same answer). -/
def natDigitsAux : Nat → Nat → List Char
  | 0, _ => []
  | fuel + 1, n =>
    if n < 10 then [Char.ofNat (48 + n)]
    else natDigitsAux fuel (n / 10) ++ [Char.ofNat (48 + n % 10)]

/-- Decimal digits of `n`, most significant first (the characters of
Python `str(n)` for a natural number). -/
def natDigits (n : Nat) : List Char := natDigitsAux (n + 1) n

/-- Python `str` on an `int`. -/
def pyStrInt (i : Int) : String :=
  if i < 0 then "-" ++ String.mk (natDigits i.natAbs) else String.mk (natDigits i.natAbs)

/-- Split a character list at every occurrence of `c` (the accumulator
holds the current chunk reversed). -/
def splitOnCharAux (c : Char) : List Char → List Char → List (List Char)
  | [], acc => [acc.reverse]
  | x :: xs, acc =>
    if x = c then acc.reverse :: splitOnCharAux c xs []
    else splitOnCharAux c xs (x :: acc)

/-- Split a character list at every occurrence of `c`: the chunks between
(and around) the occurrences, in order. -/
def splitOnChar (c : Char) (l : List Char) : List (List Char) := splitOnCharAux c l []

/-- Value of a run of decimal digit characters. -/
def digitsVal (l : List Char) : Nat := l.foldl (fun a c => 10 * a + (c.toNat - 48)) 0

def allDigits (l : List Char) : Bool := l.all Char.isDigit

/-- An exact decimal value `(-1)^neg * mant / 10^scale`: the embedding
of the parsed throughput.  (CPython stores the nearest binary double;
the two agree through the parse-then-format-to-2-decimals pipeline on
the at-most-two-decimal throughputs the measurement tool emits.) -/
structure Dec where
  neg : Bool
  mant : Nat
  scale : Nat
deriving DecidableEq

/-- Python `float(s)` restricted to the plain decimal forms the
measurement tool emits (optional sign, digits with at most one dot);
exotic accepted forms (`inf`, `nan`, exponents, underscores) are out of
the embedded grammar. `none` models `ValueError`. -/
def pyFloat (s : String) : Option Dec :=
  let signAndBody : Bool × List Char :=
    match s.data with
    | '-' :: rest => (true, rest)
    | '+' :: rest => (false, rest)
    | l => (false, l)
  let neg := signAndBody.1
  match splitOnChar '.' signAndBody.2 with
  | [ipart, fpart] =>
    if (!ipart.isEmpty || !fpart.isEmpty) && allDigits ipart && allDigits fpart then
      some ⟨neg, digitsVal ipart * 10 ^ fpart.length + digitsVal fpart, fpart.length⟩
    else none
  | [ipart] =>
    if !ipart.isEmpty && allDigits ipart then some ⟨neg, digitsVal ipart, 0⟩
    else none
  | _ => none

/-- Python `int(s)` restricted likewise to an optional sign and digits;
`none` models `ValueError`. -/
def pyInt (s : String) : Option Int :=
  match s.data with
  | '-' :: rest => if !rest.isEmpty && allDigits rest then some (-(digitsVal rest : Int)) else none
  | '+' :: rest => if !rest.isEmpty && allDigits rest then some ((digitsVal rest : Int)) else none
  | l => if !l.isEmpty && allDigits l then some ((digitsVal l : Int)) else none

/-- Round `a / b` (with `b > 0`) to the nearest natural number, ties to
even (the rounding CPython float formatting applies). -/
def roundHalfEvenNat (a b : Nat) : Nat :=
  let q := a / b
  let r := a % b
  if 2 * r < b then q
  else if b < 2 * r then q + 1
  else if q % 2 == 0 then q else q + 1

/-- Render `n` hundredths as a fixed-point numeral with exactly two
digits after the dot. -/
def fmtHundredths (n : Nat) : String :=
  String.mk (natDigits (n / 100)) ++ "." ++
    (if n % 100 < 10 then "0" ++ String.mk (natDigits (n % 100))
     else String.mk (natDigits (n % 100)))

/-- Python `f"{x:.2f}"` on the parsed decimal value: two digits after
the dot, nearest-hundredth with ties to even on the magnitude. -/
def formatFixed2 (d : Dec) : String :=
  (if d.neg then "-" else "")
    ++ fmtHundredths (roundHalfEvenNat (d.mant * 100) (10 ^ d.scale))

/-- The whitespace set of Python `str.strip()`. -/
def isSpaceChar (c : Char) : Bool :=
  c == ' ' || c == '\t' || c == '\n' || c == '\r' || c == Char.ofNat 11 || c == Char.ofNat 12

/-- Python `str.strip()`. -/
def pyStrip (s : String) : String :=
  String.mk (((s.data.dropWhile isSpaceChar).reverse.dropWhile isSpaceChar).reverse)

/-! ### Reading one CSV result row
(src/cloudflare_speedtest.py lines 3663-3720 and, identically, 3867-3924) -/

/-- One `csv.DictReader` row, restricted to the cells the two uploaders
read: `row.get('IP 地址')`, `row.get('端口')`, the first matching speed
header, the first matching latency header, and `row.get('地区码')`.
`none` models a missing/`None` cell (`(... or '')` makes it `''`). -/
structure Row where
  ip : Option String
  port : Option String
  speed : Option String
  latency : Option String
  colo : Option String
deriving DecidableEq

def orEmpty : Option String → String
  | none => ""
  | some s => s

/-- The `ip`/`port` adjustment at src lines 3688-3693: when the stripped
IP cell is non-empty, holds a colon and splits into exactly two parts,
the first part becomes the ip and the second becomes the port if the
port cell was empty. -/
def splitIpPort (ip port : String) : String × String :=
  if ip != "" && ip.data.contains ':' then
    match splitOnChar ':' ip.data with
    | [a, b] => (String.mk a, if port == "" then String.mk b else port)
    | _ => (ip, port)
  else (ip, port)

/-- The ip actually recorded for the row. -/
def effective_ip (ip port : String) : String := (splitIpPort ip port).1

/-- The port string actually parsed for the row: the split result, or
`"443"` when still empty (src lines 3696-3697). -/
def effective_port (ip port : String) : String :=
  let p := (splitIpPort ip port).2
  if p == "" then "443" else p

/-- The static airport-code table `AIRPORT_CODES` (src lines 91-224),
reduced to the only field the uploaders read: `code → name`.  The source
dict has no duplicate keys, so first-match lookup agrees with it. -/
def AIRPORT_CODES : List (String × String) := [
  ("HKG", "香港"),
  ("TPE", "台北"),
  ("NRT", "东京成田"),
  ("KIX", "大阪"),
  ("ITM", "大阪伊丹"),
  ("FUK", "福冈"),
  ("ICN", "首尔仁川"),
  ("SIN", "新加坡"),
  ("BKK", "曼谷"),
  ("HAN", "河内"),
  ("SGN", "胡志明市"),
  ("MNL", "马尼拉"),
  ("CGK", "雅加达"),
  ("KUL", "吉隆坡"),
  ("RGN", "仰光"),
  ("PNH", "金边"),
  ("BOM", "孟买"),
  ("DEL", "新德里"),
  ("MAA", "金奈"),
  ("BLR", "班加罗尔"),
  ("HYD", "海得拉巴"),
  ("CCU", "加尔各答"),
  ("SYD", "悉尼"),
  ("MEL", "墨尔本"),
  ("BNE", "布里斯班"),
  ("PER", "珀斯"),
  ("AKL", "奥克兰"),
  ("LAX", "洛杉矶"),
  ("SJC", "圣何塞"),
  ("SEA", "西雅图"),
  ("SFO", "旧金山"),
  ("PDX", "波特兰"),
  ("SAN", "圣地亚哥"),
  ("PHX", "凤凰城"),
  ("LAS", "拉斯维加斯"),
  ("EWR", "纽瓦克"),
  ("IAD", "华盛顿"),
  ("BOS", "波士顿"),
  ("PHL", "费城"),
  ("ATL", "亚特兰大"),
  ("MIA", "迈阿密"),
  ("MCO", "奥兰多"),
  ("ORD", "芝加哥"),
  ("DFW", "达拉斯"),
  ("IAH", "休斯顿"),
  ("DEN", "丹佛"),
  ("MSP", "明尼阿波利斯"),
  ("DTW", "底特律"),
  ("STL", "圣路易斯"),
  ("MCI", "堪萨斯城"),
  ("YYZ", "多伦多"),
  ("YVR", "温哥华"),
  ("YUL", "蒙特利尔"),
  ("LHR", "伦敦"),
  ("CDG", "巴黎"),
  ("FRA", "法兰克福"),
  ("AMS", "阿姆斯特丹"),
  ("BRU", "布鲁塞尔"),
  ("ZRH", "苏黎世"),
  ("VIE", "维也纳"),
  ("MUC", "慕尼黑"),
  ("DUS", "杜塞尔多夫"),
  ("HAM", "汉堡"),
  ("MAD", "马德里"),
  ("BCN", "巴塞罗那"),
  ("MXP", "米兰"),
  ("FCO", "罗马"),
  ("ATH", "雅典"),
  ("LIS", "里斯本"),
  ("ARN", "斯德哥尔摩"),
  ("CPH", "哥本哈根"),
  ("OSL", "奥斯陆"),
  ("HEL", "赫尔辛基"),
  ("WAW", "华沙"),
  ("PRG", "布拉格"),
  ("BUD", "布达佩斯"),
  ("OTP", "布加勒斯特"),
  ("SOF", "索非亚"),
  ("DXB", "迪拜"),
  ("TLV", "特拉维夫"),
  ("BAH", "巴林"),
  ("AMM", "安曼"),
  ("KWI", "科威特"),
  ("DOH", "多哈"),
  ("MCT", "马斯喀特"),
  ("GRU", "圣保罗"),
  ("GIG", "里约热内卢"),
  ("EZE", "布宜诺斯艾利斯"),
  ("BOG", "波哥大"),
  ("LIM", "利马"),
  ("SCL", "圣地亚哥"),
  ("JNB", "约翰内斯堡"),
  ("CPT", "开普敦"),
  ("CAI", "开罗"),
  ("LOS", "拉各斯"),
  ("NBO", "内罗毕"),
  ("ACC", "阿克拉")
]

/-- src lines 3705-3709: `'未知地区'` for an empty code, the table name
for a known code, the code itself otherwise. -/
def region_name_of (region_code : String) : String :=
  if region_code == "" then "未知地区"
  else
    match AIRPORT_CODES.find? (fun p => p.1 == region_code) with
    | some p => p.2
    | none => region_code

/-- One parsed measurement record (the dict appended at src lines
3711-3718). -/
structure Record where
  ip : String
  port : Int
  speed : Dec
  latency : String
  region_code : String
  region_name : String
deriving DecidableEq

/-- Parsing of one CSV row (src lines 3665-3720 / 3869-3924): strip the
cells, split a combined `ip:port`, default the port to 443, drop the row
when the ip is empty, parse the speed (empty → 0) and the port, dropping
the row on either `ValueError`, default an empty latency to `"N/A"` and
resolve the region name. -/
def parsedRecord (r : Row) : Option Record :=
  let ip0 := pyStrip (orEmpty r.ip)
  let port0 := pyStrip (orEmpty r.port)
  let speed0 := pyStrip (orEmpty r.speed)
  let latency0 := pyStrip (orEmpty r.latency)
  let colo0 := pyStrip (orEmpty r.colo)
  let ip1 := effective_ip ip0 port0
  let port1 := effective_port ip0 port0
  if ip1 == "" then none
  else
    match (if speed0 == "" then some (Dec.mk false 0 0) else pyFloat speed0), pyInt port1 with
    | some sv, some pv =>
      some { ip := ip1, port := pv, speed := sv,
             latency := if latency0 == "" then "N/A" else latency0,
             region_code := colo0, region_name := region_name_of colo0 }
    | _, _ => none

/-- The `best_ips` list: rows parsed in order, bad rows silently
skipped (`continue`). -/
def parseRows (rows : List Row) : List Record := rows.filterMap parsedRecord

/-- src lines 3765-3768 / 3938-3941: the display name
`f"{region_name}-{speed:.2f}MB/s"`. -/
def entry_name (rec : Record) : String :=
  rec.region_name ++ "-" ++ formatFixed2 rec.speed ++ "MB/s"

/-- One wire payload unit of the API uploader (src lines 3770-3774). -/
structure BatchEntry where
  ip : String
  port : Int
  name : String
deriving DecidableEq

def toEntry (rec : Record) : BatchEntry := ⟨rec.ip, rec.port, entry_name rec⟩

/-- One line of the repository blob (src line 3943):
`f"{ip}:{port}#{name}"`. -/
def serializeLine (rec : Record) : String :=
  rec.ip ++ ":" ++ pyStrInt rec.port ++ "#" ++ entry_name rec

/-- Re-parse one blob line by the delimiters of the format: the part
before the `#` splits on `:` into ip and port, the part after is the
display name (the consumer-side reading named by the spec's round-trip
property). -/
def parseLine (line : String) : Option (String × String × String) :=
  match splitOnChar '#' line.data with
  | [addr, name] =>
    match splitOnChar ':' addr with
    | [ip, port] => some (String.mk ip, String.mk port, String.mk name)
    | _ => none
  | _ => none

/-- Join chunks with a separator character (the character-level value of
`sep.join(lines)`). -/
def sepJoin (c : Char) : List (List Char) → List Char
  | [] => []
  | a :: as => a ++ (as.map (fun b => c :: b)).flatten

/-! ### `upload_to_cloudflare_api_cli` (src lines 3578-3840) -/

/-- Outcome of the GET probe on the preferred-ips endpoint as the
surrounding code sees it: a response with its status and the
`result.get('count', 0)` value, or an exception (caught by the outer
handler at src lines 3631/3656). -/
inductive ProbeOutcome where
  | resp (status : Int) (count : Nat)
  | exc
deriving DecidableEq

/-- The requests the API uploader issues, in order. -/
inductive ApiEvent where
  | getProbe
  | deleteAll (allFlag : Bool)
  | post (batch : List BatchEntry)
deriving DecidableEq

/-- `should_clear` as computed at src lines 3606-3634: only when
`clear_existing` was requested; then a 200 probe with `count > 0`, a
non-200 probe, or a probe failure all set it. -/
def should_clear (clear_existing : Bool) (probe : ProbeOutcome) : Bool :=
  if clear_existing then
    match probe with
    | .resp status count => if status == 200 then decide (0 < count) else true
    | .exc => true
  else false

/-- The POST batch (src lines 3727 and 3763-3774): the first
`min(upload_count, len(best_ips))` parsed records, mapped to entries. -/
def apiBatch (rows : List Row) (upload_count : Nat) : List BatchEntry :=
  let best_ips := parseRows rows
  ((best_ips.take (min upload_count best_ips.length)).map toEntry)

/-- `upload_to_cloudflare_api_cli` (src lines 3578-3840) as the sequence
of requests it issues: the GET probe always runs first (both the
clearing and the non-clearing branch issue it); if no row parses the
function returns after reading the file; otherwise the DELETE with body
`{"all": True}` runs exactly when `should_clear`, its failure is caught
(src lines 3754-3759) and the POST with the full batch follows
regardless of the probe and DELETE outcomes. -/
def upload_to_cloudflare_api_cli (rows : List Row) (upload_count : Nat)
    (clear_existing : Bool) (probe : ProbeOutcome) : List ApiEvent :=
  let sc := should_clear clear_existing probe
  let best_ips := parseRows rows
  if best_ips.isEmpty then [ApiEvent.getProbe]
  else
    [ApiEvent.getProbe]
      ++ (if sc then [ApiEvent.deleteAll true] else [])
      ++ [ApiEvent.post (apiBatch rows upload_count)]

/-! ### `upload_to_github_cli` (src lines 3843-4144) -/

/-- Outcome of the GET on the contents path as the code after it sees
it: a response with its status and `file_data.get('sha', '')`, or no
response at all (every exception path ends in the outer handler at src
line 4018 and the code continues without a sha). -/
inductive GetContentsOutcome where
  | resp (status : Int) (sha : String)
  | noResponse
deriving DecidableEq

/-- `file_sha` after the check block (src lines 3950-3963): set only by
a 200 response. -/
def file_sha (g : GetContentsOutcome) : Option String :=
  match g with
  | .resp status sha => if status == 200 then some sha else none
  | .noResponse => none

/-- The `sha` key of the PUT payload (src lines 4031-4033): present
exactly when `file_sha` is a non-empty string (`if file_sha:`). -/
def put_sha (g : GetContentsOutcome) : Option String :=
  match file_sha g with
  | some s => if s == "" then none else some s
  | none => none

/-- The newline-joined blob (src lines 3936-3946). -/
def githubBlob (rows : List Row) (upload_count : Nat) : String :=
  let best_ips := parseRows rows
  String.intercalate "\n"
    ((best_ips.take (min upload_count best_ips.length)).map serializeLine)

/-- The requests the repository uploader issues, in order (the optional
default-branch probe after a successful PUT is outcome-reporting only
and not modelled). -/
inductive GhEvent where
  | getContents
  | putContents (sha : Option String) (blob : String)
deriving DecidableEq

/-- `upload_to_github_cli` (src lines 3843-4144) as the sequence of
contents-API requests it issues: nothing when the repo string is
malformed or no row parses; otherwise the GET on the contents path,
then the PUT whose payload carries the blob and the discovered sha. -/
def upload_to_github_cli (rows : List Row) (upload_count : Nat)
    (repoValid : Bool) (g : GetContentsOutcome) : List GhEvent :=
  if !repoValid then []
  else
    let best_ips := parseRows rows
    if best_ips.isEmpty then []
    else [GhEvent.getContents, GhEvent.putContents (put_sha g) (githubBlob rows upload_count)]

/-! ### The command-line run flow (`run_with_args`, src lines 1780-1990) -/

inductive UploadChoice where
  | api
  | github
  | noUpload
deriving DecidableEq

/-- The externally visible actions of the measurement-and-upload part of
`run_with_args`. -/
inductive RunEvent where
  | speedtest
  | uploadApi
  | uploadGithub
deriving DecidableEq

/-- The post-measurement logic shared by the beginner mode (src lines
1855-1875) and the normal mode (src lines 1943-1967): run the external
binary; on exit 0 dispatch the requested upload if its credentials are
present and finish with exit 0; on a non-zero exit print the measurement
failure and return 1 without touching any uploader. -/
def run_measurement_flow (upload : UploadChoice) (hasApiCreds hasGithubCreds : Bool)
    (returncode : Int) : List RunEvent × Int :=
  if returncode == 0 then
    match upload with
    | .api =>
      if hasApiCreds then ([RunEvent.speedtest, RunEvent.uploadApi], 0)
      else ([RunEvent.speedtest], 0)
    | .github =>
      if hasGithubCreds then ([RunEvent.speedtest, RunEvent.uploadGithub], 0)
      else ([RunEvent.speedtest], 0)
    | .noUpload => ([RunEvent.speedtest], 0)
  else ([RunEvent.speedtest], 1)

/-! ## Claims -/

/-- C1: the claim says the silent curl fallback inside the uploaders is
triggered only by the capability-unavailable ImportError and every other
exception, network errors included, propagates.  This is false for the
repository uploader: a connection-level `RequestException` whose message
holds `"Max retries exceeded"` (the message of a refused connection in
`requests`) makes its PUT call site fall back to curl instead of
propagating. -/
theorem C1_counterexample :
    githubPutCall
        (Except.error (PyExc.requestException
          "HTTPSConnectionPool host api.github.com: Max retries exceeded with url: /repos/o/r/contents/f"))
        (Except.ok (Resp.mk 200 "")) = ClientOutcome.curlFallback (Resp.mk 200 "")
    ∧ isSslImportError (PyExc.requestException
          "HTTPSConnectionPool host api.github.com: Max retries exceeded with url: /repos/o/r/contents/f")
        = false := by
  exact ⟨by decide, by decide⟩

/-- C1 (amended): in the API uploader the curl fallback is triggered
only by the SSL-capability ImportError and every other primary-stack
exception propagates; in the repository uploader's GET and PUT call
sites, a `RequestException` whose message holds one of the three
connection-failure fragments additionally triggers a (printed, not
silent) curl fallback; every other exception propagates there too. -/
theorem C1_amended (e : PyExc) (r : Resp) :
    (isSslImportError e = false → ∀ curl : Except PyExc Resp,
        apiClientCall (Except.error e) curl = ClientOutcome.raised e)
    ∧ (isSslImportError e = true →
        apiClientCall (Except.error e) (Except.ok r) = ClientOutcome.curlFallback r)
    ∧ (isSslImportError e = false → isNetworkFallbackExc e = false →
        githubGetCall (Except.error e) (Except.ok r) = GhGetOutcome.raised e
        ∧ githubPutCall (Except.error e) (Except.ok r) = ClientOutcome.raised e)
    ∧ (isSslImportError e = true ∨ isNetworkFallbackExc e = true →
        githubGetCall (Except.error e) (Except.ok r) = GhGetOutcome.curlFallback r
        ∧ githubPutCall (Except.error e) (Except.ok r) = ClientOutcome.curlFallback r) := by
  refine ⟨fun h curl => ?_, fun h => ?_, fun h1 h2 => ?_, fun h => ?_⟩
  · simp [apiClientCall, h]
  · simp [apiClientCall, h]
  · constructor <;> simp [githubGetCall, githubPutCall, h1, h2]
  · rcases h with h | h
    · constructor <;> simp [githubGetCall, githubPutCall, h]
    · by_cases hs : isSslImportError e <;>
        constructor <;> simp [githubGetCall, githubPutCall, h, hs]

/-- C1 (amended), witnessed at a refused-connection exception and at a
plain exception. -/
theorem C1_amended_witness :
    isSslImportError (PyExc.requestException "Max retries exceeded") = false
    ∧ isNetworkFallbackExc (PyExc.requestException "Max retries exceeded") = true
    ∧ apiClientCall (Except.error (PyExc.requestException "Max retries exceeded"))
        (Except.ok (Resp.mk 200 "")) = ClientOutcome.raised (PyExc.requestException "Max retries exceeded")
    ∧ githubPutCall (Except.error (PyExc.requestException "Max retries exceeded"))
        (Except.ok (Resp.mk 200 "")) = ClientOutcome.curlFallback (Resp.mk 200 "") := by
  refine ⟨by decide, by decide, ?_, ?_⟩
  · exact (C1_amended (PyExc.requestException "Max retries exceeded") (Resp.mk 200 "")).1
      (by decide) _
  · exact ((C1_amended (PyExc.requestException "Max retries exceeded") (Resp.mk 200 "")).2.2.2
      (Or.inr (by decide))).2

/-- The success bit of the in-process strategy does not depend on the
trace tags. -/
theorem requestsMethod_snd (req : RequestsAttempt) (c : SubprocAttempt) (t1 t2 : Strategy) :
    (requestsMethod req c t1 t2).2 = requestsMethodOk req c := by
  cases req
  · rfl
  · simp only [requestsMethod, requestsMethodOk]; split <;> rfl

/-- C2: the claim says `download_file` returns true only when some
strategy produced a non-empty destination file.  False: the acceptance
test for the subprocess strategies is `returncode == 0 and
os.path.exists(filename)` (src line 455) — emptiness is never checked.
In a world where `requests` fails and `wget` exits 0 leaving an existing
but empty file, the function returns `True` though no strategy produced
a non-empty file. -/
theorem C2_counterexample :
    (download_file
      { reqHttps := RequestsAttempt.exc (PyExc.requestException "connection refused"),
        sslCurlHttps := SubprocAttempt.raisedExc (PyExc.other "x"),
        wget := SubprocAttempt.completed 0 true false,
        curl := SubprocAttempt.raisedExc (PyExc.other "x"),
        isWin32 := false,
        powershell := SubprocAttempt.raisedExc (PyExc.other "x"),
        urllibOk := false, urllibNonEmpty := false, urlIsHttps := true,
        reqHttp := RequestsAttempt.exc (PyExc.other "y"),
        sslCurlHttp := SubprocAttempt.raisedExc (PyExc.other "x") }).2 = true
    ∧ someStrategyNonEmpty
      { reqHttps := RequestsAttempt.exc (PyExc.requestException "connection refused"),
        sslCurlHttps := SubprocAttempt.raisedExc (PyExc.other "x"),
        wget := SubprocAttempt.completed 0 true false,
        curl := SubprocAttempt.raisedExc (PyExc.other "x"),
        isWin32 := false,
        powershell := SubprocAttempt.raisedExc (PyExc.other "x"),
        urllibOk := false, urllibNonEmpty := false, urlIsHttps := true,
        reqHttp := RequestsAttempt.exc (PyExc.other "y"),
        sslCurlHttp := SubprocAttempt.raisedExc (PyExc.other "x") } = false := by
  exact ⟨by decide, by decide⟩

/-- C2 (amended): `download_file` never lets an exception escape (each
strategy outcome, exceptions included, is handled and the model is a
total function into `Bool`), and it returns true exactly when some
strategy succeeds by the code's own criterion — for the subprocess
strategies exit status 0 with an existing (possibly empty) destination
file, for the in-process strategies a completed streamed write — and
false only once every strategy in the ordered list is exhausted. -/
theorem C2_amended (w : DownloadWorld) : (download_file w).2 = anyStrategyOk w := by
  unfold download_file anyStrategyOk requestsMethodOk
  repeat' split <;> simp_all [requestsMethod_snd]

/-- C3: the claim says the final resort retries the entire strategy
sequence against the http variant.  False: in a world where every
strategy fails on an https url, the attempted-strategy trace shows each
external-tool strategy tried exactly once — only the in-process
requests strategy is retried against http (src lines 509-537). -/
theorem C3_counterexample :
    (download_file
      { reqHttps := RequestsAttempt.exc (PyExc.requestException "timed out"),
        sslCurlHttps := SubprocAttempt.raisedExc (PyExc.other "x"),
        wget := SubprocAttempt.completed 1 false false,
        curl := SubprocAttempt.completed 7 false false,
        isWin32 := false,
        powershell := SubprocAttempt.raisedExc (PyExc.other "x"),
        urllibOk := false, urllibNonEmpty := false, urlIsHttps := true,
        reqHttp := RequestsAttempt.exc (PyExc.other "refused again"),
        sslCurlHttp := SubprocAttempt.raisedExc (PyExc.other "x") }).1
      = [Strategy.requestsGet, Strategy.wgetTool, Strategy.curlTool, Strategy.urllibTool,
         Strategy.requestsGetHttp]
    ∧ (download_file
      { reqHttps := RequestsAttempt.exc (PyExc.requestException "timed out"),
        sslCurlHttps := SubprocAttempt.raisedExc (PyExc.other "x"),
        wget := SubprocAttempt.completed 1 false false,
        curl := SubprocAttempt.completed 7 false false,
        isWin32 := false,
        powershell := SubprocAttempt.raisedExc (PyExc.other "x"),
        urllibOk := false, urllibNonEmpty := false, urlIsHttps := true,
        reqHttp := RequestsAttempt.exc (PyExc.other "refused again"),
        sslCurlHttp := SubprocAttempt.raisedExc (PyExc.other "x") }).2 = false := by
  exact ⟨by decide, by decide⟩

/-- C3 (amended): when every ordinary strategy has failed and the url is
https, the final resort consists of exactly one more run of the
in-process HTTP strategy (with its SSL-capability curl fallback) against
the http variant — the wget, curl, platform-shell and urllib strategies
are not retried — and the function's result is that of this single
retry. -/
theorem C3_amended (w : DownloadWorld)
    (h1 : requestsMethodOk w.reqHttps w.sslCurlHttps = false)
    (h2 : subprocOk w.wget = false) (h3 : subprocOk w.curl = false)
    (h4 : (w.isWin32 && subprocOk w.powershell) = false) (h5 : w.urllibOk = false)
    (h6 : w.urlIsHttps = true) :
    download_file w =
      ((requestsMethod w.reqHttps w.sslCurlHttps Strategy.requestsGet Strategy.sslCurl).1
        ++ [Strategy.wgetTool, Strategy.curlTool]
        ++ (if w.isWin32 then [Strategy.powershellTool] else [])
        ++ [Strategy.urllibTool]
        ++ (requestsMethod w.reqHttp w.sslCurlHttp Strategy.requestsGetHttp Strategy.sslCurlHttp).1,
       requestsMethodOk w.reqHttp w.sslCurlHttp) := by
  unfold download_file
  cases hw : w.isWin32 <;> simp_all [requestsMethod_snd]

/-- C3 (amended), witnessed at an everything-fails https world. -/
theorem C3_amended_witness :
    download_file
      { reqHttps := RequestsAttempt.exc (PyExc.requestException "timed out"),
        sslCurlHttps := SubprocAttempt.raisedExc (PyExc.other "x"),
        wget := SubprocAttempt.completed 1 false false,
        curl := SubprocAttempt.completed 7 false false,
        isWin32 := false,
        powershell := SubprocAttempt.raisedExc (PyExc.other "x"),
        urllibOk := false, urllibNonEmpty := false, urlIsHttps := true,
        reqHttp := RequestsAttempt.exc (PyExc.other "refused again"),
        sslCurlHttp := SubprocAttempt.raisedExc (PyExc.other "x") }
      = ([Strategy.requestsGet] ++ [Strategy.wgetTool, Strategy.curlTool] ++ []
          ++ [Strategy.urllibTool] ++ [Strategy.requestsGetHttp], false) := by
  have h := C3_amended
    { reqHttps := RequestsAttempt.exc (PyExc.requestException "timed out"),
      sslCurlHttps := SubprocAttempt.raisedExc (PyExc.other "x"),
      wget := SubprocAttempt.completed 1 false false,
      curl := SubprocAttempt.completed 7 false false,
      isWin32 := false,
      powershell := SubprocAttempt.raisedExc (PyExc.other "x"),
      urllibOk := false, urllibNonEmpty := false, urlIsHttps := true,
      reqHttp := RequestsAttempt.exc (PyExc.other "refused again"),
      sslCurlHttp := SubprocAttempt.raisedExc (PyExc.other "x") }
    (by decide) (by decide) (by decide) (by decide) (by decide) (by decide)
  exact h.trans (by decide)

/-- C4: whenever at least one record parses, the POST with the full
batch is the last request the API uploader issues — whatever the GET
probe outcome (success, non-200, or exception) and whatever the DELETE
outcome (which the code ignores beyond printing, src lines 3754-3759) —
and when clearing was requested and the probe reported a non-empty
registry at status 200, the uploader issues exactly GET, then DELETE
with body `{"all": True}`, then the POST, in that order, with the batch
independent of the reported count. -/
theorem C4_events (rows : List Row) (n : Nat) (clear : Bool) (probe : ProbeOutcome)
    (h : parseRows rows ≠ []) :
    (upload_to_cloudflare_api_cli rows n clear probe).getLast? =
      some (ApiEvent.post (apiBatch rows n))
    ∧ (clear = true → ∀ c : Nat, probe = ProbeOutcome.resp 200 c → 0 < c →
        upload_to_cloudflare_api_cli rows n clear probe =
          [ApiEvent.getProbe, ApiEvent.deleteAll true, ApiEvent.post (apiBatch rows n)]) := by
  constructor
  · unfold upload_to_cloudflare_api_cli
    rw [if_neg (by simp [List.isEmpty_eq_false, h])]
    by_cases hsc : should_clear clear probe <;> simp [hsc]
  · rintro rfl c rfl hc
    unfold upload_to_cloudflare_api_cli
    rw [if_neg (by simp [List.isEmpty_eq_false, h])]
    simp [should_clear, hc]

/-- C4, witnessed at a one-row result file with a count-5 probe, and at
a failed probe. -/
theorem C4_events_witness :
    parseRows [Row.mk (some "104.16.1.1") none (some "2.55") (some "9") (some "HKG")] ≠ []
    ∧ upload_to_cloudflare_api_cli
        [Row.mk (some "104.16.1.1") none (some "2.55") (some "9") (some "HKG")] 10 true
        (ProbeOutcome.resp 200 5) =
        [ApiEvent.getProbe, ApiEvent.deleteAll true,
         ApiEvent.post (apiBatch [Row.mk (some "104.16.1.1") none (some "2.55") (some "9") (some "HKG")] 10)]
    ∧ (upload_to_cloudflare_api_cli
        [Row.mk (some "104.16.1.1") none (some "2.55") (some "9") (some "HKG")] 10 true
        ProbeOutcome.exc).getLast? =
        some (ApiEvent.post (apiBatch [Row.mk (some "104.16.1.1") none (some "2.55") (some "9") (some "HKG")] 10)) := by
  refine ⟨by decide, ?_, ?_⟩
  · exact (C4_events [Row.mk (some "104.16.1.1") none (some "2.55") (some "9") (some "HKG")]
      10 true (ProbeOutcome.resp 200 5) (by decide)).2 rfl 5 rfl (by decide)
  · exact (C4_events [Row.mk (some "104.16.1.1") none (some "2.55") (some "9") (some "HKG")]
      10 true ProbeOutcome.exc (by decide)).1

/-- C5: with a well-formed repo and at least one parsed record, the
repository uploader's first request is the GET on the contents path,
and whenever that GET answers 200 with a non-empty sha, the PUT it then
issues carries exactly that sha — so a second identical call, whose GET
discovers the sha written by the first, updates the file instead of
creating a duplicate. -/
theorem C5_sha_update (rows : List Row) (n : Nat) (g : GetContentsOutcome) (s : String)
    (h : parseRows rows ≠ []) (hs : s ≠ "") :
    (upload_to_github_cli rows n true g).head? = some GhEvent.getContents
    ∧ put_sha (GetContentsOutcome.resp 200 s) = some s
    ∧ upload_to_github_cli rows n true (GetContentsOutcome.resp 200 s) =
        [GhEvent.getContents, GhEvent.putContents (some s) (githubBlob rows n)] := by
  refine ⟨?_, ?_, ?_⟩
  · unfold upload_to_github_cli
    rw [if_neg (by simp)]
    rw [if_neg (by simp [List.isEmpty_eq_false, h])]
    rfl
  · simp [put_sha, file_sha, hs]
  · unfold upload_to_github_cli
    rw [if_neg (by simp)]
    rw [if_neg (by simp [List.isEmpty_eq_false, h])]
    simp [put_sha, file_sha, hs]

/-- C5, witnessed at a one-row result file and a concrete prior sha. -/
theorem C5_sha_update_witness :
    parseRows [Row.mk (some "104.16.1.1") none (some "2.55") (some "9") (some "HKG")] ≠ []
    ∧ upload_to_github_cli
        [Row.mk (some "104.16.1.1") none (some "2.55") (some "9") (some "HKG")] 10 true
        (GetContentsOutcome.resp 200 "0a1b2c3d") =
        [GhEvent.getContents,
         GhEvent.putContents (some "0a1b2c3d")
           (githubBlob [Row.mk (some "104.16.1.1") none (some "2.55") (some "9") (some "HKG")] 10)] := by
  refine ⟨by decide, ?_⟩
  exact (C5_sha_update [Row.mk (some "104.16.1.1") none (some "2.55") (some "9") (some "HKG")]
    10 (GetContentsOutcome.resp 200 "0a1b2c3d") "0a1b2c3d" (by decide) (by decide)).2.2

/-- C6: the POST batch is exactly the first `min(maxCount, number of
parsed records)` records in order from the head of the parsed sequence
(a `maxCount` beyond the available records uploads exactly all of them,
with no padding and no error), and each entry's display name is the
record's resolved region name joined by `-` to its throughput formatted
to two decimals followed by `MB/s` — concretely, an `HKG` row with
throughput `2.55` uploads as `香港-2.55MB/s`. -/
theorem C6_batch (rows : List Row) (n : Nat) :
    apiBatch rows n = ((parseRows rows).take n).map toEntry
    ∧ (apiBatch rows n).length = min n (parseRows rows).length
    ∧ ((parseRows rows).length ≤ n → apiBatch rows n = (parseRows rows).map toEntry)
    ∧ (∀ rec : Record, toEntry rec =
        ⟨rec.ip, rec.port, rec.region_name ++ "-" ++ formatFixed2 rec.speed ++ "MB/s"⟩)
    ∧ apiBatch [Row.mk (some "104.16.1.1") none (some "2.55") (some "9") (some "HKG")] 10 =
        [⟨"104.16.1.1", 443, "香港-2.55MB/s"⟩] := by
  have key : (parseRows rows).take (min n (parseRows rows).length) = (parseRows rows).take n := by
    rw [← List.take_take, List.take_length]
  refine ⟨?_, ?_, ?_, fun rec => rfl, by decide⟩
  · simp only [apiBatch]
    rw [key]
  · simp only [apiBatch]
    rw [key]
    simp [List.length_take]
  · intro hle
    simp only [apiBatch]
    rw [key, List.take_of_length_le hle]

/-- C6, witnessed at a `maxCount` of 10 against a single available
record. -/
theorem C6_batch_witness :
    (parseRows [Row.mk (some "104.16.1.1") none (some "2.55") (some "9") (some "HKG")]).length ≤ 10
    ∧ apiBatch [Row.mk (some "104.16.1.1") none (some "2.55") (some "9") (some "HKG")] 10 =
        (parseRows [Row.mk (some "104.16.1.1") none (some "2.55") (some "9") (some "HKG")]).map toEntry := by
  exact ⟨by decide,
    (C6_batch [Row.mk (some "104.16.1.1") none (some "2.55") (some "9") (some "HKG")] 10).2.2.1
      (by decide)⟩

/-- C7: a non-empty explicit port column takes precedence; with an empty
port column, an IP cell that splits on `:` into exactly two parts
donates its second part as the port (so `1.2.3.4:8443` with an empty
port column yields 8443); otherwise the port defaults to `443`. -/
theorem C7_port (ip0 port0 : String) :
    (port0 ≠ "" → effective_port ip0 port0 = port0)
    ∧ (∀ a b : List Char, port0 = "" → ip0 ≠ "" → ip0.data.contains ':' = true →
        splitOnChar ':' ip0.data = [a, b] → String.mk b ≠ "" →
        effective_port ip0 port0 = String.mk b)
    ∧ (port0 = "" → ip0.data.contains ':' = false → effective_port ip0 port0 = "443")
    ∧ effective_port "1.2.3.4:8443" "" = "8443" := by
  refine ⟨?_, ?_, ?_, by decide⟩
  · intro h
    unfold effective_port splitIpPort
    split
    · split
      · simp [h]
      · simp [h]
    · simp [h]
  · intro a b hp hip hc hsplit hb
    subst hp
    have h2 : (splitIpPort ip0 "").2 = String.mk b := by
      unfold splitIpPort
      rw [if_pos (by simp [hip, List.mem_of_elem_eq_true hc])]
      simp [hsplit]
    simp [effective_port, h2, hb]
  · intro hp hc
    subst hp
    have hmem : ':' ∉ ip0.data := by simpa using hc
    have h2 : splitIpPort ip0 "" = (ip0, "") := by
      unfold splitIpPort
      have hcond : ¬((ip0 != "" && ip0.data.contains ':') = true) := by
        simp only [Bool.and_eq_true, bne_iff_ne]
        exact fun hcontr => hmem (List.mem_of_elem_eq_true hcontr.2)
      rw [if_neg hcond]
    simp [effective_port, h2]

/-- C7, witnessed at an explicit port column, a combined ip:port cell,
and a bare ip. -/
theorem C7_port_witness :
    effective_port "1.2.3.4" "8080" = "8080"
    ∧ effective_port "1.2.3.4:8443" "" = "8443"
    ∧ effective_port "10.0.0.1" "" = "443" := by
  refine ⟨(C7_port "1.2.3.4" "8080").1 (by decide), ?_, ?_⟩
  · exact (C7_port "1.2.3.4:8443" "").2.1 "1.2.3.4".data "8443".data rfl (by decide)
      (by decide) (by decide) (by decide)
  · exact (C7_port "10.0.0.1" "").2.2.1 rfl (by decide)

/-- C9: when the external measurement subprocess exits non-zero, the
run performs no upload of either kind and returns exit code 1 (the
measurement-failure outcome). -/
theorem C9_measure_fail (u : UploadChoice) (a b : Bool) (rc : Int) (h : rc ≠ 0) :
    run_measurement_flow u a b rc = ([RunEvent.speedtest], 1)
    ∧ RunEvent.uploadApi ∉ (run_measurement_flow u a b rc).1
    ∧ RunEvent.uploadGithub ∉ (run_measurement_flow u a b rc).1 := by
  have hbeq : (rc == 0) = false := by simpa using h
  refine ⟨?_, ?_, ?_⟩ <;> simp [run_measurement_flow, hbeq]

/-- C9, witnessed at exit code 2 with an API upload requested and
credentials present. -/
theorem C9_measure_fail_witness :
    run_measurement_flow UploadChoice.api true true 2 = ([RunEvent.speedtest], 1)
    ∧ RunEvent.uploadApi ∉ (run_measurement_flow UploadChoice.api true true 2).1 := by
  exact ⟨(C9_measure_fail UploadChoice.api true true 2 (by decide)).1,
    (C9_measure_fail UploadChoice.api true true 2 (by decide)).2.1⟩

/-- C10: for a row with a usable (non-empty) ip, a non-empty throughput
cell that does not parse as a number, or an effective port that does not
parse as an integer, drops the whole row (no record, no error), while an
empty throughput cell defaults the speed to 0 and an empty latency cell
defaults to `"N/A"`. -/
theorem C10_row_drop (r : Row)
    (hip : effective_ip (pyStrip (orEmpty r.ip)) (pyStrip (orEmpty r.port)) ≠ "") :
    (pyStrip (orEmpty r.speed) ≠ "" → pyFloat (pyStrip (orEmpty r.speed)) = none →
        parsedRecord r = none)
    ∧ (pyInt (effective_port (pyStrip (orEmpty r.ip)) (pyStrip (orEmpty r.port))) = none →
        parsedRecord r = none)
    ∧ (pyStrip (orEmpty r.speed) = "" → ∀ rec : Record, parsedRecord r = some rec →
        rec.speed = Dec.mk false 0 0)
    ∧ (pyStrip (orEmpty r.latency) = "" → ∀ rec : Record, parsedRecord r = some rec →
        rec.latency = "N/A") := by
  refine ⟨?_, ?_, ?_, ?_⟩
  · intro h1 h2
    simp [parsedRecord, hip, h1, h2]
  · intro h2
    simp [parsedRecord, hip, h2]
  · intro h1 rec hrec
    cases hpv : pyInt (effective_port (pyStrip (orEmpty r.ip)) (pyStrip (orEmpty r.port))) with
    | none => simp [parsedRecord, hip, h1, hpv] at hrec
    | some pv =>
      simp [parsedRecord, hip, h1, hpv] at hrec
      rw [← hrec]
  · intro h1 rec hrec
    by_cases hs0 : pyStrip (orEmpty r.speed) = ""
    · cases hpv : pyInt (effective_port (pyStrip (orEmpty r.ip)) (pyStrip (orEmpty r.port))) with
      | none => simp [parsedRecord, hip, hs0, hpv] at hrec
      | some pv =>
        simp [parsedRecord, hip, hs0, h1, hpv] at hrec
        rw [← hrec]
    · cases hsv : pyFloat (pyStrip (orEmpty r.speed)) with
      | none => simp [parsedRecord, hip, hs0, hsv] at hrec
      | some sv =>
        cases hpv : pyInt (effective_port (pyStrip (orEmpty r.ip)) (pyStrip (orEmpty r.port))) with
        | none => simp [parsedRecord, hip, hs0, hsv, hpv] at hrec
        | some pv =>
          simp [parsedRecord, hip, hs0, h1, hsv, hpv] at hrec
          rw [← hrec]

/-- C10, witnessed at an unparseable throughput, an unparseable port,
and the empty-cell defaults. -/
theorem C10_row_drop_witness :
    parsedRecord (Row.mk (some "1.2.3.4") none (some "fast") none none) = none
    ∧ parsedRecord (Row.mk (some "1.2.3.4") (some "80a") (some "1.5") none none) = none
    ∧ (Record.mk "9.9.9.9" 443 (Dec.mk false 0 0) "N/A" "" "未知地区").speed = Dec.mk false 0 0
    ∧ (Record.mk "9.9.9.9" 443 (Dec.mk false 0 0) "N/A" "" "未知地区").latency = "N/A" := by
  refine ⟨?_, ?_, ?_, ?_⟩
  · exact (C10_row_drop (Row.mk (some "1.2.3.4") none (some "fast") none none)
      (by decide)).1 (by decide) (by decide)
  · exact (C10_row_drop (Row.mk (some "1.2.3.4") (some "80a") (some "1.5") none none)
      (by decide)).2.1 (by decide)
  · exact (C10_row_drop (Row.mk (some "9.9.9.9") none none none none)
      (by decide)).2.2.1 rfl (Record.mk "9.9.9.9" 443 (Dec.mk false 0 0) "N/A" "" "未知地区")
      (by decide)
  · exact (C10_row_drop (Row.mk (some "9.9.9.9") none none none none)
      (by decide)).2.2.2 rfl (Record.mk "9.9.9.9" 443 (Dec.mk false 0 0) "N/A" "" "未知地区")
      (by decide)

/-! ### Splitting and joining lemmas for the blob round trip -/

theorem splitOnCharAux_no_sep (c : Char) (l acc : List Char) (h : c ∉ l) :
    splitOnCharAux c l acc = [acc.reverse ++ l] := by
  induction l generalizing acc with
  | nil => simp [splitOnCharAux]
  | cons x xs ih =>
    have hx : ¬(x = c) := fun hh => h (hh ▸ List.mem_cons_self x xs)
    rw [splitOnCharAux, if_neg hx, ih _ (fun hm => h (List.mem_cons_of_mem x hm))]
    simp

theorem splitOnCharAux_sep (c : Char) (a b acc : List Char) (h : c ∉ a) :
    splitOnCharAux c (a ++ c :: b) acc = (acc.reverse ++ a) :: splitOnChar c b := by
  induction a generalizing acc with
  | nil => simp [splitOnCharAux, splitOnChar]
  | cons x xs ih =>
    have hx : ¬(x = c) := fun hh => h (hh ▸ List.mem_cons_self x xs)
    rw [List.cons_append, splitOnCharAux, if_neg hx,
      ih _ (fun hm => h (List.mem_cons_of_mem x hm))]
    simp

/-- Splitting a separator-free chunk returns just that chunk. -/
theorem splitOnChar_no_sep (c : Char) (l : List Char) (h : c ∉ l) :
    splitOnChar c l = [l] := by
  simpa using splitOnCharAux_no_sep c l [] h

/-- Splitting peels off a leading separator-free chunk. -/
theorem splitOnChar_sep (c : Char) (a b : List Char) (h : c ∉ a) :
    splitOnChar c (a ++ c :: b) = a :: splitOnChar c b := by
  simpa using splitOnCharAux_sep c a b [] h

theorem digit_char_mem (m : Nat) (hm : m < 10) :
    Char.ofNat (48 + m) ∈ ['0','1','2','3','4','5','6','7','8','9'] := by
  interval_cases m <;> decide

/-- Every character a natural number renders to is a decimal digit. -/
theorem mem_natDigitsAux (fuel n : Nat) (c : Char) (h : c ∈ natDigitsAux fuel n) :
    c ∈ ['0','1','2','3','4','5','6','7','8','9'] := by
  induction fuel generalizing n with
  | zero => simp [natDigitsAux] at h
  | succ fuel ih =>
    rw [natDigitsAux] at h
    split at h
    · rename_i hn
      rw [List.mem_singleton] at h
      exact h ▸ digit_char_mem n hn
    · rw [List.mem_append, List.mem_singleton] at h
      rcases h with h | h
      · exact ih _ h
      · exact h ▸ digit_char_mem (n % 10) (Nat.mod_lt _ (by omega))

/-- Every character an integer renders to is a digit or a minus sign. -/
theorem mem_pyStrInt (i : Int) (c : Char) (h : c ∈ (pyStrInt i).data) :
    c ∈ ['-','0','1','2','3','4','5','6','7','8','9'] := by
  unfold pyStrInt at h
  split at h
  · rw [String.data_append] at h
    rcases List.mem_append.mp h with h | h
    · simp at h
      simp [h]
    · exact List.mem_cons_of_mem _ (mem_natDigitsAux _ _ _ h)
  · exact List.mem_cons_of_mem _ (mem_natDigitsAux _ _ _ h)

theorem pyStrInt_no_colon (i : Int) : ':' ∉ (pyStrInt i).data :=
  fun h => absurd (mem_pyStrInt i ':' h) (by decide)

theorem pyStrInt_no_hash (i : Int) : '#' ∉ (pyStrInt i).data :=
  fun h => absurd (mem_pyStrInt i '#' h) (by decide)

theorem string_mk_data (s : String) : String.mk s.data = s := rfl

theorem intercalate_go_data (s : String) : ∀ (l : List String) (acc : String),
    (String.intercalate.go acc s l).data =
      acc.data ++ (l.map (fun b => s.data ++ b.data)).flatten := by
  intro l
  induction l with
  | nil => intro acc; simp [String.intercalate.go]
  | cons a as ih =>
    intro acc
    rw [String.intercalate.go, ih]
    simp [String.data_append]

/-- The characters of `sep.join(lines)` for a one-character separator. -/
theorem intercalate_data_single (c : Char) (s : String) (hs : s.data = [c])
    (l : List String) :
    (String.intercalate s l).data = sepJoin c (l.map String.data) := by
  cases l with
  | nil => rfl
  | cons a as =>
    rw [String.intercalate, intercalate_go_data]
    simp only [List.map_cons, sepJoin, List.map_map, hs]
    rfl

/-- Splitting a separator-joined list of separator-free chunks gives the
chunks back. -/
theorem splitOnChar_sepJoin (c : Char) : ∀ (ls : List (List Char)), ls ≠ [] →
    (∀ l ∈ ls, c ∉ l) → splitOnChar c (sepJoin c ls) = ls := by
  intro ls
  induction ls with
  | nil => intro hne; cases hne rfl
  | cons a as ih =>
    intro _ h
    cases as with
    | nil =>
      have hj : sepJoin c [a] = a := by simp [sepJoin]
      rw [hj, splitOnChar_no_sep c a (h a (List.mem_cons_self a []))]
    | cons b bs =>
      have hj : sepJoin c (a :: b :: bs) = a ++ c :: sepJoin c (b :: bs) := by
        simp [sepJoin]
      rw [hj, splitOnChar_sep c _ _ (h a (List.mem_cons_self a _)),
        ih (by simp) (fun l hl => h l (List.mem_cons_of_mem a hl))]

/-- C8: each blob line is `"<ip>:<port>#<displayName>"` with nothing
around the separators; re-parsing such a line by its `#` and `:`
delimiters returns the same ip, port-string and display name (whenever
the ip and name do not themselves contain the delimiters, as for every
real address); the blob is those lines joined by `"\n"`, and splitting
the blob on `"\n"` recovers the serialized lines. -/
theorem C8_roundtrip (rec : Record) (recs : List Record)
    (h1 : '#' ∉ rec.ip.data) (h2 : ':' ∉ rec.ip.data)
    (h3 : '#' ∉ (entry_name rec).data)
    (hne : recs ≠ []) (hnl : ∀ r ∈ recs, '\n' ∉ (serializeLine r).data) :
    serializeLine rec = rec.ip ++ ":" ++ pyStrInt rec.port ++ "#" ++ entry_name rec
    ∧ parseLine (serializeLine rec) = some (rec.ip, pyStrInt rec.port, entry_name rec)
    ∧ (∀ (rows : List Row) (n : Nat), githubBlob rows n =
        String.intercalate "\n"
          (((parseRows rows).take (min n (parseRows rows).length)).map serializeLine))
    ∧ splitOnChar '\n' (String.intercalate "\n" (recs.map serializeLine)).data =
        recs.map (fun r => (serializeLine r).data) := by
  refine ⟨rfl, ?_, fun rows n => rfl, ?_⟩
  · have hdata : (serializeLine rec).data =
        (rec.ip.data ++ ':' :: (pyStrInt rec.port).data) ++ '#' :: (entry_name rec).data := by
      simp [serializeLine, String.data_append]
    have hhash : '#' ∉ rec.ip.data ++ ':' :: (pyStrInt rec.port).data := by
      intro hm
      rcases List.mem_append.mp hm with hm | hm
      · exact h1 hm
      · rcases List.mem_cons.mp hm with hm | hm
        · exact absurd hm (by decide)
        · exact pyStrInt_no_hash rec.port hm
    unfold parseLine
    rw [hdata, splitOnChar_sep '#' _ _ hhash, splitOnChar_no_sep '#' _ h3]
    simp only [splitOnChar_sep ':' _ _ h2,
      splitOnChar_no_sep ':' _ (pyStrInt_no_colon rec.port)]
  · rw [intercalate_data_single '\n' "\n" rfl]
    rw [splitOnChar_sepJoin '\n' _ (by simpa using hne)
      (by intro l hl; simp [List.map_map] at hl; rcases hl with ⟨r, hr, rfl⟩; exact hnl r hr)]
    simp [List.map_map]

/-- C8, witnessed at a concrete two-record upload. -/
theorem C8_roundtrip_witness :
    parseLine (serializeLine
        (Record.mk "1.1.1.1" 443 (Dec.mk false 255 2) "9" "HKG" "香港")) =
      some ("1.1.1.1", "443", "香港-2.55MB/s")
    ∧ splitOnChar '\n'
        (String.intercalate "\n"
          ([Record.mk "1.1.1.1" 443 (Dec.mk false 255 2) "9" "HKG" "香港",
            Record.mk "8.8.8.8" 2053 (Dec.mk false 1225 3) "5" "SJC" "圣何塞"].map
            serializeLine)).data =
      [Record.mk "1.1.1.1" 443 (Dec.mk false 255 2) "9" "HKG" "香港",
       Record.mk "8.8.8.8" 2053 (Dec.mk false 1225 3) "5" "SJC" "圣何塞"].map
        (fun r => (serializeLine r).data) := by
  constructor
  · exact ((C8_roundtrip (Record.mk "1.1.1.1" 443 (Dec.mk false 255 2) "9" "HKG" "香港")
      [Record.mk "1.1.1.1" 443 (Dec.mk false 255 2) "9" "HKG" "香港"]
      (by decide) (by decide) (by decide) (by decide)
      (by decide)).2.1).trans (by decide)
  · exact (C8_roundtrip (Record.mk "1.1.1.1" 443 (Dec.mk false 255 2) "9" "HKG" "香港")
      [Record.mk "1.1.1.1" 443 (Dec.mk false 255 2) "9" "HKG" "香港",
       Record.mk "8.8.8.8" 2053 (Dec.mk false 1225 3) "5" "SJC" "圣何塞"]
      (by decide) (by decide) (by decide) (by decide)
      (by decide)).2.2.2

end CFST
